import Mathlib

set_option maxRecDepth 8000

/-!
Shallow embedding of the real-time relay in `apps/api` (WebSocket preview and
annotation endpoints, `src/unnamed/part_010`), together with proofs about its
behaviour.

Modelling conventions:
* Each WebSocket handler invocation becomes a pure state-transition function on
  an explicit `ServerState`.  Fire-and-forget persistence writes (`prisma.…`)
  are modelled on their success path; the `catch` branches only swallow errors.
* Sockets are identified by `Nat` ids; `socket.send` appends to a `sent` log;
  `socket.close(code, reason)` records the close code on an open socket.
* JavaScript `Map`s become association lists (`setKey`/`eraseKey`); the JS `Set`
  of subscriber entries becomes a list in insertion order.
* The device is identified directly by its `deviceId`; the `agentId → deviceId`
  database lookup of `getDeviceIdByAgentId` is modelled by membership in the
  `devices` table.
-/

abbrev DeviceId := String
abbrev SockId := Nat
abbrev ConnId := Nat
abbrev Time := Nat

/-- `Map.prototype.get` on a string-keyed association list. -/
def getKey {β : Type} : List (String × β) → String → Option β
  | [], _ => none
  | (k', v) :: t, k => if k' = k then some v else getKey t k

/-- `Map.prototype.get` on a nat-keyed association list. -/
def getKeyN {β : Type} : List (Nat × β) → Nat → Option β
  | [], _ => none
  | (k', v) :: t, k => if k' = k then some v else getKeyN t k

/-- State of one WebSocket as the relay observes it: `readyState` (1 = OPEN,
3 = CLOSED) and, once closed by the relay, the close code and reason. -/
structure SockState where
  readyState : Nat := 1
  closeCode : Option (Nat × String) := none
deriving Repr, DecidableEq

/-- An outbound message recorded in the send log. -/
inductive OutMsg where
  | binMsg (payload : List Nat)
  | textMsg (s : String)
deriving Repr, DecidableEq

/-- One entry of a `previewSubscribers` set: `{ socket, screen }`. -/
structure Subscriber where
  sockId : SockId
  screen : Nat
deriving Repr, DecidableEq

/-- A `deviceOnlineSession` row. -/
structure OnlineSession where
  sessionId : Nat
  deviceId : DeviceId
  startedAt : Time
  endedAt : Option Time
deriving Repr, DecidableEq

/-- A `viewSession` row. -/
structure ViewSession where
  sessionId : Nat
  viewerId : String
  deviceId : DeviceId
  startedAt : Time
  endedAt : Option Time
deriving Repr, DecidableEq

/-- The closure state of one `/ws/device/preview` handler invocation:
the `closed` flag, the pending inactivity deadline (`inactivityTimer`), and the
`onlineSessionId` captured by `closeSupervisorsAndEndSession`. -/
structure PubConn where
  connId : ConnId
  deviceId : DeviceId
  sockId : SockId
  closed : Bool
  deadline : Option Time
  onlineSessionId : Option Nat
deriving Repr, DecidableEq

/-- Association-list removal (JS `Map.prototype.delete`). -/
def eraseKey {β : Type} : List (String × β) → String → List (String × β)
  | [], _ => []
  | (k', v) :: t, k => if k' = k then eraseKey t k else (k', v) :: eraseKey t k

/-- Association-list update: replace the binding of `k` (JS `Map.prototype.set`). -/
def setKey {β : Type} (l : List (String × β)) (k : String) (v : β) : List (String × β) :=
  (k, v) :: eraseKey l k

/-- Association-list removal on `Nat` keys. -/
def eraseKeyN {β : Type} : List (Nat × β) → Nat → List (Nat × β)
  | [], _ => []
  | (k', v) :: t, k => if k' = k then eraseKeyN t k else (k', v) :: eraseKeyN t k

/-- Association-list update on `Nat` keys. -/
def setKeyN {β : Type} (l : List (Nat × β)) (k : Nat) (v : β) : List (Nat × β) :=
  (k, v) :: eraseKeyN l k

/-- Update the value at an existing key only (a `prisma …​.update` by id:
a missing row throws and the error is swallowed, leaving the table unchanged). -/
def updateKey {β : Type} (l : List (String × β)) (k : String) (v : β) : List (String × β) :=
  l.map (fun p => if p.1 = k then (k, v) else p)

/-- The full in-memory + durable state touched by the preview endpoints. -/
structure ServerState where
  now : Time
  /-- `device` table: registered devices with their `lastSeenAt`. -/
  devices : List (DeviceId × Option Time)
  /-- `deviceOnlineSession` table. -/
  onlineSessions : List OnlineSession
  /-- `viewSession` table. -/
  viewSessions : List ViewSession
  /-- `devicePreviewPublisher : Map deviceId → { socket, agentId }`,
  modelled as the publisher connection id. -/
  devicePreviewPublisher : List (DeviceId × ConnId)
  /-- `deviceScreensCount : Map deviceId → screens`. -/
  deviceScreensCount : List (DeviceId × Int)
  /-- `previewSubscribers : Map deviceId → Set { socket, screen }`. -/
  previewSubscribers : List (DeviceId × List Subscriber)
  /-- Per-publisher-connection closure state. -/
  conns : List PubConn
  /-- All sockets, publisher and viewer alike. -/
  sockets : List (SockId × SockState)
  /-- Log of every `socket.send`. -/
  sent : List (SockId × OutMsg)
  /-- Fresh-id counter for sockets, connections and session rows. -/
  nextId : Nat
deriving Repr, DecidableEq

/-- `readyState` of a socket (0 when the socket is unknown). -/
def readyOf (sockets : List (SockId × SockState)) (sid : SockId) : Nat :=
  ((getKeyN sockets sid).map SockState.readyState).getD 0

/-- `socket.close(code, reason)`: an open socket transitions to CLOSED and
records the code; closing a non-open socket is a no-op. -/
def closeSock (sockets : List (SockId × SockState)) (sid : SockId)
    (code : Nat) (reason : String) : List (SockId × SockState) :=
  match getKeyN sockets sid with
  | some st =>
    if st.readyState = 1 then
      setKeyN sockets sid { readyState := 3, closeCode := some (code, reason) }
    else sockets
  | none => sockets

/-- `INACTIVITY_MS = 60_000`: 60 s without a frame marks the agent offline. -/
def INACTIVITY_MS : Nat := 60000

/-- An inbound WebSocket message: `raw : Buffer | string`. -/
inductive Raw where
  | textRaw (s : String)
  | binRaw (bytes : List Nat)
deriving Repr, DecidableEq

/-- Modelled: UTF-8 decoding of a byte buffer (`buf.toString("utf8")`), exact on
ASCII bytes; a byte outside the ASCII range decodes to the replacement
character.  (The canonical meta wire format is pure ASCII, so a buffer with a
non-ASCII byte can never spell a meta message, matching `JSON.parse` failure.) -/
def utf8Decode (bytes : List Nat) : String :=
  String.mk (bytes.map (fun b => if b < 128 then Char.ofNat b else Char.ofNat 0xFFFD))

/-- Line 580: `typeof raw === "string" ? raw : (Buffer.isBuffer(raw) && raw[0] === 0x7b ? raw.toString("utf8") : null)`. -/
def rawStrOf : Raw → Option String
  | .textRaw s => some s
  | .binRaw bytes => if bytes.head? = some 0x7b then some (utf8Decode bytes) else none

/-- Digits of a decimal number to its value; `none` on empty or non-digit input. -/
def digitsToNat (cs : List Char) : Option Nat :=
  if cs ≠ [] ∧ cs.all Char.isDigit then
    some (cs.foldl (fun a c => a * 10 + (c.toNat - 48)) 0)
  else none

/-- A JavaScript-serialized integer (optional leading minus, then digits). -/
def parseJsInt (cs : List Char) : Option Int :=
  match cs with
  | '-' :: rest => (digitsToNat rest).map (fun n => -(n : Int))
  | cs => (digitsToNat cs).map (fun n => (n : Int))

/-- The fixed head of the canonical meta wire format. -/
def metaHeadStr : String := "\x7b\"type\":\"meta\",\"screens\":"

/-- `JSON.stringify({ type: "meta", screens: n })` — the exact string the
server re-broadcasts and the agent sends. -/
def metaMsgStr (n : Int) : String := metaHeadStr ++ toString n ++ "\x7d"

/-- Modelled: `JSON.parse` followed by the
`meta.type === "meta" && typeof meta.screens === "number"` checks, restricted to
the canonical wire format `metaMsgStr n` (the only meta serialization produced
by the agent, `JSON.stringify({type:"meta",screens:N})`); any other string
yields `none`, as a failed parse or a non-meta object does in the handler. -/
def parseMeta (s : String) : Option Int :=
  let hd := metaHeadStr.data
  let cs := s.data
  if cs.take hd.length = hd then
    match (cs.drop hd.length).reverse with
    | last :: revMid =>
      if last = Char.ofNat 0x7d then parseJsInt revMid.reverse else none
    | [] => none
  else none

/-- Find the closure state of publisher connection `cid`. -/
def findConn (conns : List PubConn) (cid : ConnId) : Option PubConn :=
  conns.find? (fun c => c.connId = cid)

/-- Rewrite the closure state of publisher connection `cid`. -/
def updateConn (conns : List PubConn) (cid : ConnId) (f : PubConn → PubConn) :
    List PubConn :=
  conns.map (fun c => if c.connId = cid then f c else c)

/-- Set `endedAt` on the session row with the given id
(`prisma.deviceOnlineSession.update({ where: { id }, data: { endedAt } })`). -/
def endSessionRow (rows : List OnlineSession) (sid : Nat) (t : Time) :
    List OnlineSession :=
  rows.map (fun r => if r.sessionId = sid then { r with endedAt := some t } else r)

/-- Force-close every subscriber socket with `4002 "agent_disconnected"`,
skipping sockets that are not open (`if (s.readyState === 1) s.close(4002, …)`). -/
def closeViewerSocks (sockets : List (SockId × SockState)) (subs : List Subscriber) :
    List (SockId × SockState) :=
  subs.foldl (fun socks v => closeSock socks v.sockId 4002 "agent_disconnected") sockets

/-- `closeSupervisorsAndEndSession` (lines 518–545): idempotent teardown of a
publisher connection.  Guarded by the `closed` flag; clears the inactivity
timer, ends the open connectivity session, nulls the device's `lastSeenAt`,
drops the publisher binding and the screen-count entry, and force-closes every
current viewer of the device with `4002 "agent_disconnected"`. -/
def closeSupervisorsAndEndSession (s : ServerState) (cid : ConnId) : ServerState :=
  match findConn s.conns cid with
  | none => s
  | some c =>
    if c.closed then s
    else
      let s1 := { s with
        conns := updateConn s.conns cid (fun c0 => { c0 with closed := true, deadline := none }) }
      let s2 := match c.onlineSessionId with
        | some sid => { s1 with onlineSessions := endSessionRow s1.onlineSessions sid s.now }
        | none => s1
      let s3 := { s2 with
        devices := updateKey s2.devices c.deviceId none,
        devicePreviewPublisher := eraseKey s2.devicePreviewPublisher c.deviceId,
        deviceScreensCount := eraseKey s2.deviceScreensCount c.deviceId }
      match getKey s3.previewSubscribers c.deviceId with
      | none => s3
      | some subs =>
        { s3 with
          previewSubscribers := eraseKey s3.previewSubscribers c.deviceId,
          sockets := closeViewerSocks s3.sockets subs }

/-- `scheduleInactivity` (lines 547–558): reset the inactivity timer to a full
window from now. -/
def scheduleInactivity (s : ServerState) (cid : ConnId) : ServerState :=
  { s with
    conns := updateConn s.conns cid
      (fun c0 => { c0 with deadline := some (s.now + INACTIVITY_MS) }) }

/-- The body of the inactivity `setTimeout` callback: close the publisher
socket with `4004 "inactivity"` and tear everything down.  It can only run
while the timer is armed (`deadline = some d`) and due (`d ≤ now`), on a
connection whose teardown has not already cleared the timer. -/
def inactivityTimeout (s : ServerState) (cid : ConnId) : ServerState :=
  match findConn s.conns cid with
  | none => s
  | some c =>
    if c.closed then s
    else
      match c.deadline with
      | none => s
      | some d =>
        if s.now < d then s
        else
          let s1 := { s with
            conns := updateConn s.conns cid (fun c0 => { c0 with deadline := none }),
            sockets := closeSock s.sockets c.sockId 4004 "inactivity" }
          closeSupervisorsAndEndSession s1 cid

/-- The `GET /ws/device/preview` connect handler (lines 500–573), for a request
carrying an `agentId`:  an unregistered agent is closed with
`4001 "device not registered"`; otherwise the publisher binding is overwritten
(`devicePreviewPublisher.set`), a connectivity session row is created open, and
the inactivity watchdog is armed.  A fresh socket/connection/session id is
drawn from `nextId`. -/
def wsDevicePreview (s : ServerState) (deviceId : DeviceId) : ServerState :=
  let sockId := s.nextId
  let s1 := { s with
    sockets := setKeyN s.sockets sockId {},
    nextId := s.nextId + 1 }
  if (getKey s1.devices deviceId).isNone then
    { s1 with sockets := closeSock s1.sockets sockId 4001 "device not registered" }
  else
    { s1 with
      devicePreviewPublisher := setKey s1.devicePreviewPublisher deviceId sockId,
      onlineSessions := s1.onlineSessions ++
        [{ sessionId := sockId, deviceId := deviceId, startedAt := s.now, endedAt := none }],
      conns := s1.conns ++
        [{ connId := sockId, deviceId := deviceId, sockId := sockId, closed := false,
           deadline := some (s.now + INACTIVITY_MS), onlineSessionId := some sockId }] }

/-- The meta branch of the publisher message handler (lines 581–599):
clamp the reported count to at least 1, store it in the Screen-Count directory
(latest value wins) and re-broadcast the meta to every open viewer of the
device. -/
def metaBroadcast (s2 : ServerState) (deviceId : DeviceId) (n : Int) : ServerState :=
  let screens := max 1 n
  let s3 := { s2 with
    deviceScreensCount := setKey s2.deviceScreensCount deviceId screens }
  let subs := (getKey s3.previewSubscribers deviceId).getD []
  { s3 with
    sent := s3.sent ++
      (subs.filter (fun v => readyOf s3.sockets v.sockId = 1)).map
        (fun v => (v.sockId, OutMsg.textMsg (metaMsgStr screens))) }

/-- The binary branch of the publisher message handler (lines 605–612):
first byte is the screen index, the rest is the encoded frame, forwarded to
every open subscriber of the device whose requested screen matches. -/
def frameFanout (s2 : ServerState) (deviceId : DeviceId) (bytes : List Nat) : ServerState :=
  match getKey s2.previewSubscribers deviceId with
  | none => s2
  | some subs =>
    if bytes.length < 2 then s2
    else
      let screenIndex := bytes.headD 0
      let frame := bytes.drop 1
      { s2 with
        sent := s2.sent ++
          (subs.filter (fun v =>
              readyOf s2.sockets v.sockId = 1 ∧ v.screen = screenIndex)).map
            (fun v => (v.sockId, OutMsg.binMsg frame)) }

/-- The dispatch of the publisher message handler on the text-versus-binary
sniff of line 580, applied to the state in which the watchdog is already
re-armed and the device marked seen. -/
def onMessageDispatch (s2 : ServerState) (deviceId : DeviceId) (raw : Raw) : ServerState :=
  match rawStrOf raw with
  | some str =>
    match parseMeta str with
    | some n => metaBroadcast s2 deviceId n
    | none => s2
  | none =>
    match raw with
    | .textRaw _ => s2
    | .binRaw bytes => frameFanout s2 deviceId bytes

/-- The body of the publisher `socket.on("message")` handler after the
connection guard: re-arm the watchdog, mark the device seen, then dispatch. -/
def onMessageBody (s : ServerState) (c : PubConn) (raw : Raw) : ServerState :=
  let s1 := scheduleInactivity s c.connId
  let s2 := { s1 with devices := updateKey s1.devices c.deviceId (some s.now) }
  onMessageDispatch s2 c.deviceId raw

/-- The publisher `socket.on("message")` handler (lines 575–613).  A message
can only arrive on a connection that is still open. -/
def devicePreviewOnMessage (s : ServerState) (cid : ConnId) (raw : Raw) : ServerState :=
  match findConn s.conns cid with
  | none => s
  | some c =>
    if c.closed then s
    else onMessageBody s c raw

/-- The state on which the message dispatch runs: watchdog re-armed to a full
window, device marked seen. -/
def seenState (s : ServerState) (c : PubConn) : ServerState :=
  { s with
    conns := updateConn s.conns c.connId
      (fun c0 => { c0 with deadline := some (s.now + INACTIVITY_MS) }),
    devices := updateKey s.devices c.deviceId (some s.now) }

/-- `GET /devices/:deviceId/screens` (lines 494–498):
`Math.max(1, deviceScreensCount.get(deviceId) ?? 1)`. -/
def getDeviceScreens (s : ServerState) (deviceId : DeviceId) : Int :=
  max 1 ((getKey s.deviceScreensCount deviceId).getD 1)

/-- The `GET /ws/supervisor/preview` connect handler (lines 616–680):
an invalid token closes with `4001 "invalid token"`; a device with no live
publisher binding closes with `4003 "agent_offline"` before any state is
touched; otherwise the viewer is added to the subscriber set, the current
screen count is pushed, and an open `viewSession` row is created. -/
def wsSupervisorPreview (s : ServerState) (deviceId : DeviceId) (userId : String)
    (screenParam : Nat) (tokenValid : Bool) : ServerState :=
  let sockId := s.nextId
  let s1 := { s with
    sockets := setKeyN s.sockets sockId {},
    nextId := s.nextId + 1 }
  if !tokenValid then
    { s1 with sockets := closeSock s1.sockets sockId 4001 "invalid token" }
  else if (getKey s1.devicePreviewPublisher deviceId).isNone then
    { s1 with sockets := closeSock s1.sockets sockId 4003 "agent_offline" }
  else
    let s2 := { s1 with
      previewSubscribers := setKey s1.previewSubscribers deviceId
        (((getKey s1.previewSubscribers deviceId).getD []) ++
          [({ sockId := sockId, screen := screenParam } : Subscriber)]) }
    let screensCount := (getKey s2.deviceScreensCount deviceId).getD 1
    let s3 :=
      if readyOf s2.sockets sockId = 1 then
        { s2 with sent := s2.sent ++ [(sockId, OutMsg.textMsg (metaMsgStr screensCount))] }
      else s2
    { s3 with
      viewSessions := s3.viewSessions ++
        [({ sessionId := sockId, viewerId := userId, deviceId := deviceId,
            startedAt := s.now, endedAt := none } : ViewSession)] }

/-- The external events driving the preview part of the relay. -/
inductive Event where
  | elapse (dt : Nat)
  | pubConnect (deviceId : DeviceId)
  | pubMessage (cid : ConnId) (raw : Raw)
  | pubClose (cid : ConnId)
  | pubError (cid : ConnId)
  | watchdog (cid : ConnId)
  | viewerConnect (deviceId : DeviceId) (userId : String) (screenParam : Nat)
      (tokenValid : Bool)
deriving Repr, DecidableEq

/-- One step of the relay: dispatch an event to its handler.  Both the remote
close and a transport error run `closeSupervisorsAndEndSession`. -/
def step (s : ServerState) : Event → ServerState
  | .elapse dt => { s with now := s.now + dt }
  | .pubConnect d => wsDevicePreview s d
  | .pubMessage cid raw => devicePreviewOnMessage s cid raw
  | .pubClose cid => closeSupervisorsAndEndSession s cid
  | .pubError cid => closeSupervisorsAndEndSession s cid
  | .watchdog cid => inactivityTimeout s cid
  | .viewerConnect d u sp tv => wsSupervisorPreview s d u sp tv

/-- Run a sequence of events from a state. -/
def run (s : ServerState) (es : List Event) : ServerState := es.foldl step s

/-- The server right after boot, with the given devices already registered. -/
def initState (registered : List DeviceId) : ServerState :=
  { now := 0, devices := registered.map (fun d => (d, none)), onlineSessions := [],
    viewSessions := [], devicePreviewPublisher := [], deviceScreensCount := [],
    previewSubscribers := [], conns := [], sockets := [], sent := [], nextId := 0 }

/-- The sessions of a device still marked online. -/
def openSessionsFor (s : ServerState) (d : DeviceId) : List OnlineSession :=
  s.onlineSessions.filter (fun r => r.deviceId = d ∧ r.endedAt = none)

/-- One entry of a `supervisorAnnotateByDevice` set: `{ socket, userId }`. -/
structure SupEntry where
  sockId : SockId
  userId : String
deriving Repr, DecidableEq

/-- State of the annotation relay (`/ws/device/annotate` and
`/ws/supervisor/annotate`), independent of the preview state. -/
structure AnnState where
  /-- `deviceAnnotateSubscribers : Map deviceId → Set { socket }`. -/
  deviceAnnotateSubscribers : List (DeviceId × List SockId)
  /-- `supervisorAnnotateByDevice : Map deviceId → Set { socket, userId }`. -/
  supervisorAnnotateByDevice : List (DeviceId × List SupEntry)
  sockets : List (SockId × SockState)
  /-- Log of every annotation `socket.send` (the payload is textual). -/
  sent : List (SockId × String)
deriving Repr, DecidableEq

/-- The device-side annotate `socket.on("message")` handler (lines 708–712):
`raw.toString()` is relayed to every open supervisor-side annotation socket of
the same device. -/
def wsDeviceAnnotateOnMessage (st : AnnState) (deviceId : DeviceId) (msg : String) :
    AnnState :=
  match getKey st.supervisorAnnotateByDevice deviceId with
  | none => st
  | some subs =>
    { st with
      sent := st.sent ++
        (subs.filter (fun e => readyOf st.sockets e.sockId = 1)).map
          (fun e => (e.sockId, msg)) }

/-- The supervisor-side annotate `socket.on("message")` handler (lines 745–749):
`raw.toString()` is relayed to every open device-side annotation socket of the
same device. -/
def wsSupervisorAnnotateOnMessage (st : AnnState) (deviceId : DeviceId) (msg : String) :
    AnnState :=
  match getKey st.deviceAnnotateSubscribers deviceId with
  | none => st
  | some subs =>
    { st with
      sent := st.sent ++
        (subs.filter (fun sid => readyOf st.sockets sid = 1)).map
          (fun sid => (sid, msg)) }

theorem getKey_setKey_self {β : Type} (l : List (String × β)) (k : String) (v : β) :
    getKey (setKey l k v) k = some v := by
  simp [setKey, getKey]

theorem getKey_eraseKey_ne {β : Type} (l : List (String × β)) (k k' : String)
    (h : k' ≠ k) : getKey (eraseKey l k) k' = getKey l k' := by
  have hkk : ¬ k = k' := fun hk => h hk.symm
  induction l with
  | nil => rfl
  | cons p t ih =>
    rcases p with ⟨pk, pv⟩
    by_cases hp : pk = k
    · simp [eraseKey, hp, getKey, hkk, ih]
    · by_cases hpk : pk = k'
      · simp [eraseKey, hp, getKey, hpk, h]
      · simp [eraseKey, hp, getKey, hpk, ih]

theorem getKey_setKey_ne {β : Type} (l : List (String × β)) (k k' : String) (v : β)
    (h : k' ≠ k) : getKey (setKey l k v) k' = getKey l k' := by
  have hkk : ¬ k = k' := fun hk => h hk.symm
  have h2 := getKey_eraseKey_ne l k k' h
  simp [setKey, getKey, hkk, h2]

theorem getKey_eraseKey_self {β : Type} (l : List (String × β)) (k : String) :
    getKey (eraseKey l k) k = none := by
  induction l with
  | nil => rfl
  | cons p t ih =>
    rcases p with ⟨pk, pv⟩
    by_cases hp : pk = k
    · simp [eraseKey, hp, ih]
    · simp [eraseKey, hp, getKey, ih]

theorem getKeyN_setKeyN_self {β : Type} (l : List (Nat × β)) (k : Nat) (v : β) :
    getKeyN (setKeyN l k v) k = some v := by
  simp [setKeyN, getKeyN]

theorem getKeyN_eraseKeyN_ne {β : Type} (l : List (Nat × β)) (k k' : Nat)
    (h : k' ≠ k) : getKeyN (eraseKeyN l k) k' = getKeyN l k' := by
  have hkk : ¬ k = k' := fun hk => h hk.symm
  induction l with
  | nil => rfl
  | cons p t ih =>
    rcases p with ⟨pk, pv⟩
    by_cases hp : pk = k
    · simp [eraseKeyN, hp, getKeyN, hkk, ih]
    · by_cases hpk : pk = k'
      · simp [eraseKeyN, hp, getKeyN, hpk, h]
      · simp [eraseKeyN, hp, getKeyN, hpk, ih]

theorem getKeyN_setKeyN_ne {β : Type} (l : List (Nat × β)) (k k' : Nat) (v : β)
    (h : k' ≠ k) : getKeyN (setKeyN l k v) k' = getKeyN l k' := by
  have hkk : ¬ k = k' := fun hk => h hk.symm
  have h2 := getKeyN_eraseKeyN_ne l k k' h
  simp [setKeyN, getKeyN, hkk, h2]

theorem findConn_updateConn (conns : List PubConn) (cid : ConnId)
    (f : PubConn → PubConn) (hf : ∀ c, (f c).connId = c.connId) :
    findConn (updateConn conns cid f) cid = (findConn conns cid).map f := by
  induction conns with
  | nil => rfl
  | cons c t ih =>
    by_cases hc : c.connId = cid
    · simp [updateConn, findConn, List.find?, hc, hf]
    · simp only [updateConn, findConn] at ih ⊢
      simp [List.find?, hc, ih]

theorem getKeyN_closeSock_ne (sockets : List (SockId × SockState)) (sid sid' : SockId)
    (code : Nat) (reason : String) (h : sid' ≠ sid) :
    getKeyN (closeSock sockets sid code reason) sid' = getKeyN sockets sid' := by
  unfold closeSock
  cases getKeyN sockets sid with
  | none => rfl
  | some st =>
    by_cases hst : st.readyState = 1
    · simp [hst, getKeyN_setKeyN_ne _ _ _ _ h]
    · simp [hst]

theorem closeSock_not_open (sockets : List (SockId × SockState)) (sid : SockId)
    (code : Nat) (reason : String) (st : SockState)
    (hst : getKeyN sockets sid = some st) (h : st.readyState ≠ 1) :
    closeSock sockets sid code reason = sockets := by
  unfold closeSock
  rw [hst]
  simp [h]

theorem getKeyN_closeSock_open (sockets : List (SockId × SockState)) (sid : SockId)
    (code : Nat) (reason : String) (st : SockState)
    (hst : getKeyN sockets sid = some st) (h : st.readyState = 1) :
    getKeyN (closeSock sockets sid code reason) sid =
      some { readyState := 3, closeCode := some (code, reason) } := by
  unfold closeSock
  rw [hst]
  simp [h, getKeyN_setKeyN_self]

theorem closeViewerSocks_not_open (sockets : List (SockId × SockState))
    (subs : List Subscriber) (sid : SockId) (st : SockState)
    (hst : getKeyN sockets sid = some st) (h : st.readyState ≠ 1) :
    getKeyN (closeViewerSocks sockets subs) sid = some st := by
  induction subs generalizing sockets with
  | nil => exact hst
  | cons v t ih =>
    by_cases hv : v.sockId = sid
    · rw [closeViewerSocks, List.foldl_cons]
      have heq : closeSock sockets v.sockId 4002 "agent_disconnected" = sockets := by
        rw [hv]; exact closeSock_not_open _ _ _ _ _ hst h
      rw [heq]
      exact ih sockets hst
    · rw [closeViewerSocks, List.foldl_cons]
      apply ih
      rw [getKeyN_closeSock_ne _ _ _ _ _ (fun hs => hv hs.symm)]
      exact hst

theorem closeViewerSocks_open (sockets : List (SockId × SockState))
    (subs : List Subscriber) (sid : SockId) (st : SockState)
    (hmem : sid ∈ subs.map Subscriber.sockId)
    (hst : getKeyN sockets sid = some st) (h : st.readyState = 1) :
    getKeyN (closeViewerSocks sockets subs) sid =
      some { readyState := 3, closeCode := some (4002, "agent_disconnected") } := by
  induction subs generalizing sockets with
  | nil => simp at hmem
  | cons v t ih =>
    rw [closeViewerSocks, List.foldl_cons]
    by_cases hv : v.sockId = sid
    · have hclosed : getKeyN (closeSock sockets v.sockId 4002 "agent_disconnected") sid =
          some { readyState := 3, closeCode := some (4002, "agent_disconnected") } := by
        rw [hv]; exact getKeyN_closeSock_open _ _ _ _ _ hst h
      exact closeViewerSocks_not_open _ t sid _ hclosed (by simp)
    · have hmem' : sid ∈ t.map Subscriber.sockId := by
        rcases List.mem_map.mp hmem with ⟨w, hw, hws⟩
        rcases List.mem_cons.mp hw with hwv | hwt
        · exact absurd (hwv ▸ hws) hv
        · exact List.mem_map.mpr ⟨w, hwt, hws⟩
      apply ih _ hmem'
      rw [getKeyN_closeSock_ne _ _ _ _ _ (fun hs => hv hs.symm)]
      exact hst

/-- Removing an absent key is a no-op. -/
theorem eraseKey_of_getKey_none {β : Type} (l : List (String × β)) (k : String)
    (h : getKey l k = none) : eraseKey l k = l := by
  induction l with
  | nil => rfl
  | cons p t ih =>
    rcases p with ⟨pk, pv⟩
    by_cases hp : pk = k
    · rw [getKey, if_pos hp] at h
      exact absurd h (by simp)
    · rw [getKey, if_neg hp] at h
      rw [eraseKey, if_neg hp, ih h]

/-- Effect of a first teardown trigger on a live connection, as one record
equality. -/
theorem closeSession_effect (s : ServerState) (cid : ConnId) (c : PubConn)
    (hc : findConn s.conns cid = some c) (hlive : c.closed = false) :
    closeSupervisorsAndEndSession s cid =
      { s with
        conns := updateConn s.conns cid (fun c0 => { c0 with closed := true, deadline := none }),
        onlineSessions :=
          (match c.onlineSessionId with
           | some sid => endSessionRow s.onlineSessions sid s.now
           | none => s.onlineSessions),
        devices := updateKey s.devices c.deviceId none,
        devicePreviewPublisher := eraseKey s.devicePreviewPublisher c.deviceId,
        deviceScreensCount := eraseKey s.deviceScreensCount c.deviceId,
        previewSubscribers := eraseKey s.previewSubscribers c.deviceId,
        sockets := closeViewerSocks s.sockets
          ((getKey s.previewSubscribers c.deviceId).getD []) } := by
  unfold closeSupervisorsAndEndSession
  rw [hc]
  simp only [hlive, Bool.false_eq_true, if_false]
  cases honline : c.onlineSessionId with
  | none =>
    cases hsubs : getKey s.previewSubscribers c.deviceId with
    | none => simp [hsubs, eraseKey_of_getKey_none _ _ hsubs, closeViewerSocks]
    | some subs => simp [hsubs, closeViewerSocks]
  | some sid =>
    cases hsubs : getKey s.previewSubscribers c.deviceId with
    | none => simp [hsubs, eraseKey_of_getKey_none _ _ hsubs, closeViewerSocks]
    | some subs => simp [hsubs, closeViewerSocks]

/-- A teardown trigger on an already-closed connection changes nothing. -/
theorem closeSession_closed (s : ServerState) (cid : ConnId) (c : PubConn)
    (hc : findConn s.conns cid = some c) (hclosed : c.closed = true) :
    closeSupervisorsAndEndSession s cid = s := by
  unfold closeSupervisorsAndEndSession
  rw [hc]
  simp [hclosed]

/-- After a first teardown, the connection is flagged closed with no timer. -/
theorem findConn_closeSession (s : ServerState) (cid : ConnId) (c : PubConn)
    (hc : findConn s.conns cid = some c) (hlive : c.closed = false) :
    findConn (closeSupervisorsAndEndSession s cid).conns cid =
      some { c with closed := true, deadline := none } := by
  rw [closeSession_effect s cid c hc hlive]
  have h := findConn_updateConn s.conns cid
      (fun c0 => { c0 with closed := true, deadline := none }) (fun _ => rfl)
  rw [h, hc]
  rfl

/-- The watchdog callback cannot run on a closed connection or a cleared timer. -/
theorem inactivityTimeout_noop (s : ServerState) (cid : ConnId) (c : PubConn)
    (hc : findConn s.conns cid = some c)
    (h : c.closed = true ∨ c.deadline = none) :
    inactivityTimeout s cid = s := by
  unfold inactivityTimeout
  rw [hc]
  rcases h with h | h
  · simp [h]
  · cases hcl : c.closed
    · simp [hcl, h]
    · simp [hcl]

/-- The message handler reduces to its body on a live connection. -/
theorem onMessage_eq_body (s : ServerState) (cid : ConnId) (c : PubConn) (raw : Raw)
    (hc : findConn s.conns cid = some c) (hlive : c.closed = false) :
    devicePreviewOnMessage s cid raw = onMessageBody s c raw := by
  unfold devicePreviewOnMessage
  rw [hc]
  simp [hlive]

/-- The body is the dispatch on the seen state. -/
theorem onMessageBody_eq (s : ServerState) (c : PubConn) (raw : Raw) :
    onMessageBody s c raw = onMessageDispatch (seenState s c) c.deviceId raw := rfl

theorem metaBroadcast_conns (s2 : ServerState) (deviceId : DeviceId) (n : Int) :
    (metaBroadcast s2 deviceId n).conns = s2.conns := rfl

theorem frameFanout_conns (s2 : ServerState) (deviceId : DeviceId) (bytes : List Nat) :
    (frameFanout s2 deviceId bytes).conns = s2.conns := by
  unfold frameFanout
  cases getKey s2.previewSubscribers deviceId with
  | none => rfl
  | some subs =>
    by_cases hlen : bytes.length < 2
    · simp [hlen]
    · simp [hlen]

/-- Dispatch on a text frame that parses as a meta message. -/
theorem onMessageDispatch_text_meta (s2 : ServerState) (d : DeviceId) (str : String)
    (n : Int) (hp : parseMeta str = some n) :
    onMessageDispatch s2 d (.textRaw str) = metaBroadcast s2 d n := by
  unfold onMessageDispatch
  simp only [rawStrOf, hp]

/-- Dispatch on a text frame that does not parse as a meta message. -/
theorem onMessageDispatch_text_nometa (s2 : ServerState) (d : DeviceId) (str : String)
    (hp : parseMeta str = none) :
    onMessageDispatch s2 d (.textRaw str) = s2 := by
  unfold onMessageDispatch
  simp only [rawStrOf, hp]

/-- Dispatch on a binary frame whose first byte is `0x7b` and whose decoding
parses as a meta message. -/
theorem onMessageDispatch_bin7b_meta (s2 : ServerState) (d : DeviceId)
    (bytes : List Nat) (n : Int) (hb : bytes.head? = some 0x7b)
    (hp : parseMeta (utf8Decode bytes) = some n) :
    onMessageDispatch s2 d (.binRaw bytes) = metaBroadcast s2 d n := by
  unfold onMessageDispatch
  simp only [rawStrOf, hb, if_pos, hp]

/-- Dispatch on a binary frame whose first byte is `0x7b` but whose decoding
does not parse as a meta message: the frame is dropped entirely. -/
theorem onMessageDispatch_bin7b_nometa (s2 : ServerState) (d : DeviceId)
    (bytes : List Nat) (hb : bytes.head? = some 0x7b)
    (hp : parseMeta (utf8Decode bytes) = none) :
    onMessageDispatch s2 d (.binRaw bytes) = s2 := by
  unfold onMessageDispatch
  simp only [rawStrOf, hb, if_pos, hp]

/-- Dispatch on any other binary frame: the frame fan-out path. -/
theorem onMessageDispatch_binFrame (s2 : ServerState) (d : DeviceId) (bytes : List Nat)
    (hb : ¬ bytes.head? = some 0x7b) :
    onMessageDispatch s2 d (.binRaw bytes) = frameFanout s2 d bytes := by
  unfold onMessageDispatch
  simp only [rawStrOf]
  rw [if_neg hb]

theorem onMessageDispatch_conns (s2 : ServerState) (deviceId : DeviceId) (raw : Raw) :
    (onMessageDispatch s2 deviceId raw).conns = s2.conns := by
  cases raw with
  | textRaw s0 =>
    cases hp : parseMeta s0 with
    | some n =>
      rw [onMessageDispatch_text_meta s2 deviceId s0 n hp]
      exact metaBroadcast_conns s2 deviceId n
    | none => rw [onMessageDispatch_text_nometa s2 deviceId s0 hp]
  | binRaw bytes =>
    by_cases hb : bytes.head? = some 0x7b
    · cases hp : parseMeta (utf8Decode bytes) with
      | some n =>
        rw [onMessageDispatch_bin7b_meta s2 deviceId bytes n hb hp]
        exact metaBroadcast_conns s2 deviceId n
      | none => rw [onMessageDispatch_bin7b_nometa s2 deviceId bytes hb hp]
    · rw [onMessageDispatch_binFrame s2 deviceId bytes hb]
      exact frameFanout_conns s2 deviceId bytes

theorem onMessage_conns (s : ServerState) (cid : ConnId) (c : PubConn) (raw : Raw)
    (hc : findConn s.conns cid = some c) (hlive : c.closed = false) :
    (devicePreviewOnMessage s cid raw).conns =
      updateConn s.conns cid
        (fun c0 => { c0 with deadline := some (s.now + INACTIVITY_MS) }) := by
  rw [onMessage_eq_body s cid c raw hc hlive, onMessageBody_eq, onMessageDispatch_conns]
  have hcid : c.connId = cid := by
    have := List.find?_some hc
    simpa using this
  rw [seenState, hcid]

/-- The meta branch in one record equality. -/
theorem metaBroadcast_eq (s2 : ServerState) (d : DeviceId) (n : Int) :
    metaBroadcast s2 d n =
      { s2 with
        deviceScreensCount := setKey s2.deviceScreensCount d (max 1 n),
        sent := s2.sent ++
          (((getKey s2.previewSubscribers d).getD []).filter
              (fun v => readyOf s2.sockets v.sockId = 1)).map
            (fun v => (v.sockId, OutMsg.textMsg (metaMsgStr (max 1 n)))) } := rfl

/-- The frame branch with no subscriber set: nothing happens. -/
theorem frameFanout_none (s2 : ServerState) (d : DeviceId) (bytes : List Nat)
    (hs : getKey s2.previewSubscribers d = none) :
    frameFanout s2 d bytes = s2 := by
  unfold frameFanout
  rw [hs]

/-- The frame branch with a subscriber set and a long-enough buffer. -/
theorem frameFanout_some (s2 : ServerState) (d : DeviceId) (bytes : List Nat)
    (subs : List Subscriber) (hs : getKey s2.previewSubscribers d = some subs)
    (hlen : ¬ bytes.length < 2) :
    frameFanout s2 d bytes =
      { s2 with
        sent := s2.sent ++
          (subs.filter (fun v =>
              readyOf s2.sockets v.sockId = 1 ∧ v.screen = bytes.headD 0)).map
            (fun v => (v.sockId, OutMsg.binMsg (bytes.drop 1))) } := by
  unfold frameFanout
  rw [hs]
  simp [hlen]

/-- A frame message on a live connection, end to end. -/
theorem onMessage_frame_sent (s : ServerState) (cid : ConnId) (c : PubConn)
    (b : Nat) (rest : List Nat)
    (hc : findConn s.conns cid = some c) (hlive : c.closed = false)
    (hb : ¬ b = 0x7b) (hrest : rest ≠ []) :
    (devicePreviewOnMessage s cid (.binRaw (b :: rest))).sent =
      s.sent ++
        (((getKey s.previewSubscribers c.deviceId).getD []).filter
            (fun v => readyOf s.sockets v.sockId = 1 ∧ v.screen = b)).map
          (fun v => (v.sockId, OutMsg.binMsg rest)) := by
  rw [onMessage_eq_body s cid c _ hc hlive, onMessageBody_eq]
  have hb' : ¬ (b :: rest).head? = some 0x7b := by simpa using hb
  rw [onMessageDispatch_binFrame _ _ _ hb']
  have hlen : ¬ (b :: rest).length < 2 := by
    cases rest with
    | nil => exact absurd rfl hrest
    | cons x xs => simp
  cases hs : getKey s.previewSubscribers c.deviceId with
  | none =>
    have hs2 : getKey (seenState s c).previewSubscribers c.deviceId = none := hs
    rw [frameFanout_none _ _ _ hs2]
    simp [seenState]
  | some subs =>
    have hs2 : getKey (seenState s c).previewSubscribers c.deviceId = some subs := hs
    rw [frameFanout_some _ _ _ _ hs2 hlen]
    simp [seenState]

/-- A meta message on a live connection reduces to the meta branch on the seen
state. -/
theorem onMessage_meta_eq (s : ServerState) (cid : ConnId) (c : PubConn)
    (str : String) (n : Int)
    (hc : findConn s.conns cid = some c) (hlive : c.closed = false)
    (hp : parseMeta str = some n) :
    devicePreviewOnMessage s cid (.textRaw str) =
      metaBroadcast (seenState s c) c.deviceId n := by
  rw [onMessage_eq_body s cid c _ hc hlive, onMessageBody_eq,
    onMessageDispatch_text_meta _ _ _ _ hp]

/-- A registered device's publisher-connect handler takes the accept branch. -/
theorem wsDevicePreview_accept (s : ServerState) (d : DeviceId)
    (hreg : (getKey s.devices d).isSome = true) :
    wsDevicePreview s d =
      { s with
        sockets := setKeyN s.sockets s.nextId {},
        nextId := s.nextId + 1,
        devicePreviewPublisher := setKey s.devicePreviewPublisher d s.nextId,
        onlineSessions := s.onlineSessions ++
          [{ sessionId := s.nextId, deviceId := d, startedAt := s.now, endedAt := none }],
        conns := s.conns ++
          [{ connId := s.nextId, deviceId := d, sockId := s.nextId, closed := false,
             deadline := some (s.now + INACTIVITY_MS), onlineSessionId := some s.nextId }] } := by
  have hnone : (getKey s.devices d).isNone = false := by
    cases h : getKey s.devices d
    · rw [h] at hreg; simp at hreg
    · rfl
  unfold wsDevicePreview
  simp [hnone]

/-- **C1** is false as stated: after a second publisher for `"D1"` connects
while the first is still live, the `deviceOnlineSession` table holds two rows
for `"D1"` with `endedAt = null` at the same instant — the handler overwrites
the binding without ending the previous session. -/
theorem c1_counterexample :
    (openSessionsFor (run (initState ["D1"]) [.pubConnect "D1", .pubConnect "D1"]) "D1").length
        = 2 ∧
    ¬ (openSessionsFor (run (initState ["D1"]) [.pubConnect "D1", .pubConnect "D1"])
          "D1").length ≤ 1 := by
  exact ⟨rfl, by decide⟩

/-- **C1** (amended): accepting a publisher connection for a registered device
opens one fresh session with `endedAt = null` and leaves every existing session
row — including any still-open session of the same device — untouched; a
session is only ended by its own connection's teardown.  So overlapping
publishers yield overlapping open sessions. -/
theorem c1_amended (s : ServerState) (d : DeviceId)
    (hreg : (getKey s.devices d).isSome = true) :
    (wsDevicePreview s d).onlineSessions =
      s.onlineSessions ++
        [{ sessionId := s.nextId, deviceId := d, startedAt := s.now, endedAt := none }] := by
  rw [wsDevicePreview_accept s d hreg]

theorem c1_amended_witness :
    (wsDevicePreview (initState ["D1"]) "D1").onlineSessions =
      [{ sessionId := 0, deviceId := "D1", startedAt := 0, endedAt := none }] :=
  (c1_amended (initState ["D1"]) "D1" (by decide)).trans (by rfl)

/-- **C2** is false as stated: in the state reached by `P1` connecting for
`"D1"` (socket 0), a viewer joining (socket 1) and `P2` connecting (socket 2),
`P1`'s socket is still open with no close code, the viewer's socket is still
open, and `P1`'s connectivity session still has `endedAt = null` — nothing was
evicted or closed; only the binding now points at `P2`. -/
theorem c2_counterexample :
    getKeyN (run (initState ["D1"]) [.pubConnect "D1", .viewerConnect "D1" "u1" 0 true,
        .pubConnect "D1"]).sockets 0 = some { readyState := 1, closeCode := none } ∧
    getKeyN (run (initState ["D1"]) [.pubConnect "D1", .viewerConnect "D1" "u1" 0 true,
        .pubConnect "D1"]).sockets 1 = some { readyState := 1, closeCode := none } ∧
    (run (initState ["D1"]) [.pubConnect "D1", .viewerConnect "D1" "u1" 0 true,
        .pubConnect "D1"]).onlineSessions =
      [{ sessionId := 0, deviceId := "D1", startedAt := 0, endedAt := none },
       { sessionId := 2, deviceId := "D1", startedAt := 0, endedAt := none }] ∧
    getKey (run (initState ["D1"]) [.pubConnect "D1", .viewerConnect "D1" "u1" 0 true,
        .pubConnect "D1"]).devicePreviewPublisher "D1" = some 2 := by
  exact ⟨rfl, rfl, rfl, rfl⟩

/-- **C2** (amended): accepting a second publisher `P2` for a device replaces
the publisher binding with `P2` (last-writer-wins on the binding only) and
opens a fresh connectivity session, but it does not close `P1`'s socket, does
not close any viewer, does not touch the viewer sets or the send log, and does
not end `P1`'s still-open session; those effects happen only when `P1`'s own
connection later closes, errors or expires. -/
theorem c2_amended (s : ServerState) (d : DeviceId)
    (hreg : (getKey s.devices d).isSome = true) :
    (wsDevicePreview s d).devicePreviewPublisher =
        setKey s.devicePreviewPublisher d s.nextId ∧
    (wsDevicePreview s d).onlineSessions =
      s.onlineSessions ++
        [{ sessionId := s.nextId, deviceId := d, startedAt := s.now, endedAt := none }] ∧
    (wsDevicePreview s d).previewSubscribers = s.previewSubscribers ∧
    (wsDevicePreview s d).sent = s.sent ∧
    (wsDevicePreview s d).viewSessions = s.viewSessions ∧
    (∀ sid, sid ≠ s.nextId →
        getKeyN (wsDevicePreview s d).sockets sid = getKeyN s.sockets sid) := by
  rw [wsDevicePreview_accept s d hreg]
  refine ⟨rfl, rfl, rfl, rfl, rfl, ?_⟩
  intro sid hsid
  exact getKeyN_setKeyN_ne s.sockets s.nextId sid _ hsid

theorem c2_amended_witness :
    (wsDevicePreview (run (initState ["D1"]) [.pubConnect "D1",
        .viewerConnect "D1" "u1" 0 true]) "D1").devicePreviewPublisher =
      [("D1", 2)] ∧
    getKeyN (wsDevicePreview (run (initState ["D1"]) [.pubConnect "D1",
        .viewerConnect "D1" "u1" 0 true]) "D1").sockets 0 =
      some { readyState := 1, closeCode := none } := by
  have h := c2_amended (run (initState ["D1"]) [.pubConnect "D1",
      .viewerConnect "D1" "u1" 0 true]) "D1" (by decide)
  refine ⟨h.1.trans (by rfl), (h.2.2.2.2.2 0 (by decide)).trans (by rfl)⟩

/-- **C6**: a viewer join (valid token) for a device with no live publisher
binding is closed with `4003 "agent_offline"`; no `viewSession` row is created
and the viewer is not added to any subscriber set (nor is anything sent). -/
theorem wsSupervisorPreview_offline (s : ServerState) (d : DeviceId) (u : String)
    (sp : Nat) (hoff : getKey s.devicePreviewPublisher d = none) :
    wsSupervisorPreview s d u sp true =
      { s with
        sockets := closeSock (setKeyN s.sockets s.nextId {}) s.nextId 4003 "agent_offline",
        nextId := s.nextId + 1 } := by
  have hnone : (getKey s.devicePreviewPublisher d).isNone = true := by
    rw [hoff]; rfl
  unfold wsSupervisorPreview
  simp [hnone]

theorem c6_agent_offline_reject (s : ServerState) (d : DeviceId) (u : String)
    (sp : Nat) (hoff : getKey s.devicePreviewPublisher d = none) :
    getKeyN (wsSupervisorPreview s d u sp true).sockets s.nextId =
      some { readyState := 3, closeCode := some (4003, "agent_offline") } ∧
    (wsSupervisorPreview s d u sp true).viewSessions = s.viewSessions ∧
    (wsSupervisorPreview s d u sp true).previewSubscribers = s.previewSubscribers ∧
    (wsSupervisorPreview s d u sp true).sent = s.sent := by
  rw [wsSupervisorPreview_offline s d u sp hoff]
  refine ⟨?_, rfl, rfl, rfl⟩
  have hopen : getKeyN (setKeyN s.sockets s.nextId {}) s.nextId =
      some ({} : SockState) := getKeyN_setKeyN_self s.sockets s.nextId {}
  exact getKeyN_closeSock_open _ _ _ _ _ hopen rfl

theorem c6_agent_offline_reject_witness :
    getKeyN (wsSupervisorPreview (initState ["D1"]) "D1" "u1" 0 true).sockets 0 =
      some { readyState := 3, closeCode := some (4003, "agent_offline") } ∧
    (wsSupervisorPreview (initState ["D1"]) "D1" "u1" 0 true).viewSessions = [] ∧
    (wsSupervisorPreview (initState ["D1"]) "D1" "u1" 0 true).previewSubscribers = [] ∧
    (wsSupervisorPreview (initState ["D1"]) "D1" "u1" 0 true).sent = [] := by
  have h := c6_agent_offline_reject (initState ["D1"]) "D1" "u1" 0 (by rfl)
  exact ⟨h.1, h.2.1, h.2.2.1, h.2.2.2⟩

/-- An open `readyState` pins down the stored socket state. -/
theorem readyOf_eq_one (sockets : List (SockId × SockState)) (sid : SockId)
    (h : readyOf sockets sid = 1) :
    ∃ st, getKeyN sockets sid = some st ∧ st.readyState = 1 := by
  unfold readyOf at h
  cases hg : getKeyN sockets sid with
  | none => rw [hg] at h; simp at h
  | some st =>
    rw [hg] at h
    simp at h
    exact ⟨st, rfl, h⟩

/-- A due watchdog closes the publisher socket and runs the teardown. -/
theorem inactivityTimeout_fires (s : ServerState) (cid : ConnId) (c : PubConn)
    (d : Time) (hc : findConn s.conns cid = some c) (hlive : c.closed = false)
    (hd : c.deadline = some d) (hdue : d ≤ s.now) :
    inactivityTimeout s cid =
      closeSupervisorsAndEndSession
        { s with
          conns := updateConn s.conns cid (fun c0 => { c0 with deadline := none }),
          sockets := closeSock s.sockets c.sockId 4004 "inactivity" } cid := by
  unfold inactivityTimeout
  rw [hc]
  simp [hlive, hd, Nat.not_lt.mpr hdue]

/-- **C7**: teardown of a live publisher connection performs its effects —
session row ended, `lastSeenAt` nulled, screen-count entry dropped, every open
viewer force-closed with `4002 "agent_disconnected"` (a reason distinct from
the inactivity code `4004 "inactivity"`) — and is idempotent: a repeated
trigger by remote close or transport error, the watchdog after a teardown, or
a close arriving after the watchdog has already fired, all change nothing. -/
theorem c7_teardown_idempotent (s : ServerState) (cid : ConnId) (c : PubConn)
    (hc : findConn s.conns cid = some c) (hlive : c.closed = false) :
    (∀ sid, c.onlineSessionId = some sid →
      (closeSupervisorsAndEndSession s cid).onlineSessions =
        endSessionRow s.onlineSessions sid s.now) ∧
    (closeSupervisorsAndEndSession s cid).devices =
        updateKey s.devices c.deviceId none ∧
    getKey (closeSupervisorsAndEndSession s cid).deviceScreensCount c.deviceId = none ∧
    (∀ v, v ∈ (getKey s.previewSubscribers c.deviceId).getD [] →
      readyOf s.sockets v.sockId = 1 →
      getKeyN (closeSupervisorsAndEndSession s cid).sockets v.sockId =
        some { readyState := 3, closeCode := some (4002, "agent_disconnected") } ∧
      ((4002 : Nat), "agent_disconnected") ≠ ((4004 : Nat), "inactivity")) ∧
    closeSupervisorsAndEndSession (closeSupervisorsAndEndSession s cid) cid =
      closeSupervisorsAndEndSession s cid ∧
    inactivityTimeout (closeSupervisorsAndEndSession s cid) cid =
      closeSupervisorsAndEndSession s cid ∧
    (∀ d, c.deadline = some d → d ≤ s.now →
      closeSupervisorsAndEndSession (inactivityTimeout s cid) cid =
        inactivityTimeout s cid) := by
  have heff := closeSession_effect s cid c hc hlive
  have hconn := findConn_closeSession s cid c hc hlive
  refine ⟨?_, ?_, ?_, ?_, ?_, ?_, ?_⟩
  · intro sid hsid
    rw [heff]
    simp [hsid]
  · rw [heff]
  · rw [heff]
    exact getKey_eraseKey_self s.deviceScreensCount c.deviceId
  · intro v hv hready
    rcases readyOf_eq_one s.sockets v.sockId hready with ⟨st, hst, hst1⟩
    refine ⟨?_, by decide⟩
    rw [heff]
    exact closeViewerSocks_open s.sockets _ v.sockId st
      (List.mem_map.mpr ⟨v, hv, rfl⟩) hst hst1
  · exact closeSession_closed _ cid _ hconn rfl
  · exact inactivityTimeout_noop _ cid _ hconn (Or.inl rfl)
  · intro d hd hdue
    rw [inactivityTimeout_fires s cid c d hc hlive hd hdue]
    set s1 : ServerState :=
      { s with
        conns := updateConn s.conns cid (fun c0 => { c0 with deadline := none }),
        sockets := closeSock s.sockets c.sockId 4004 "inactivity" } with hs1
    have hc1 : findConn s1.conns cid = some { c with deadline := none } := by
      rw [hs1]
      show findConn (updateConn s.conns cid fun c0 => { c0 with deadline := none }) cid = _
      rw [findConn_updateConn s.conns cid
        (fun c0 => { c0 with deadline := none }) (fun _ => rfl), hc]
      rfl
    have hlive1 : ({ c with deadline := none } : PubConn).closed = false := hlive
    have hconn1 := findConn_closeSession s1 cid _ hc1 hlive1
    exact closeSession_closed _ cid _ hconn1 rfl

theorem c7_teardown_idempotent_witness :
    closeSupervisorsAndEndSession
        (closeSupervisorsAndEndSession
          (run (initState ["D1"]) [.pubConnect "D1", .viewerConnect "D1" "u1" 0 true]) 0) 0 =
      closeSupervisorsAndEndSession
        (run (initState ["D1"]) [.pubConnect "D1", .viewerConnect "D1" "u1" 0 true]) 0 ∧
    getKeyN (closeSupervisorsAndEndSession
        (run (initState ["D1"]) [.pubConnect "D1", .viewerConnect "D1" "u1" 0 true]) 0).sockets 1 =
      some { readyState := 3, closeCode := some (4002, "agent_disconnected") } := by
  have h := c7_teardown_idempotent
      (run (initState ["D1"]) [.pubConnect "D1", .viewerConnect "D1" "u1" 0 true]) 0
      { connId := 0, deviceId := "D1", sockId := 0, closed := false,
        deadline := some 60000, onlineSessionId := some 0 } (by decide) rfl
  exact ⟨h.2.2.2.2.1, (h.2.2.2.1 { sockId := 1, screen := 0 } (by decide) (by decide)).1⟩

/-- **C10**: teardown is keyed only by the device id captured in the handler
closure, not by connection identity — it deletes the device's publisher
binding and screen-count entry and force-closes all of the device's open
viewers even when the binding currently belongs to a different (newer)
publisher connection than the one being torn down. -/
theorem c10_teardown_by_device (s : ServerState) (cid : ConnId) (c : PubConn)
    (other : ConnId) (hc : findConn s.conns cid = some c) (hlive : c.closed = false)
    (_hbind : getKey s.devicePreviewPublisher c.deviceId = some other) :
    getKey (closeSupervisorsAndEndSession s cid).devicePreviewPublisher c.deviceId = none ∧
    getKey (closeSupervisorsAndEndSession s cid).deviceScreensCount c.deviceId = none ∧
    (∀ v, v ∈ (getKey s.previewSubscribers c.deviceId).getD [] →
      readyOf s.sockets v.sockId = 1 →
      getKeyN (closeSupervisorsAndEndSession s cid).sockets v.sockId =
        some { readyState := 3, closeCode := some (4002, "agent_disconnected") }) := by
  have heff := closeSession_effect s cid c hc hlive
  refine ⟨?_, ?_, ?_⟩
  · rw [heff]
    exact getKey_eraseKey_self s.devicePreviewPublisher c.deviceId
  · rw [heff]
    exact getKey_eraseKey_self s.deviceScreensCount c.deviceId
  · intro v hv hready
    rcases readyOf_eq_one s.sockets v.sockId hready with ⟨st, hst, hst1⟩
    rw [heff]
    exact closeViewerSocks_open s.sockets _ v.sockId st
      (List.mem_map.mpr ⟨v, hv, rfl⟩) hst hst1

theorem c10_teardown_by_device_witness :
    getKey (closeSupervisorsAndEndSession
        (run (initState ["D1"]) [.pubConnect "D1", .viewerConnect "D1" "u1" 0 true,
          .pubConnect "D1"]) 0).devicePreviewPublisher "D1" = none ∧
    getKeyN (closeSupervisorsAndEndSession
        (run (initState ["D1"]) [.pubConnect "D1", .viewerConnect "D1" "u1" 0 true,
          .pubConnect "D1"]) 0).sockets 1 =
      some { readyState := 3, closeCode := some (4002, "agent_disconnected") } := by
  have h := c10_teardown_by_device
      (run (initState ["D1"]) [.pubConnect "D1", .viewerConnect "D1" "u1" 0 true,
        .pubConnect "D1"]) 0
      { connId := 0, deviceId := "D1", sockId := 0, closed := false,
        deadline := some 60000, onlineSessionId := some 0 } 2 (by decide) rfl (by decide)
  exact ⟨h.1, h.2.2 { sockId := 1, screen := 0 } (by decide) (by decide)⟩

/-- **C3** is false as stated: when the watchdog of `"D1"`'s publisher expires
(viewer on socket 1), the viewer is closed with `4002 "agent_disconnected"`,
not with the inactivity reason — only the publisher's own socket gets
`4004 "inactivity"`. -/
theorem c3_counterexample :
    getKeyN (run (initState ["D1"]) [.pubConnect "D1", .viewerConnect "D1" "u1" 0 true,
        .elapse 60000, .watchdog 0]).sockets 1 =
      some { readyState := 3, closeCode := some (4002, "agent_disconnected") } ∧
    getKeyN (run (initState ["D1"]) [.pubConnect "D1", .viewerConnect "D1" "u1" 0 true,
        .elapse 60000, .watchdog 0]).sockets 0 =
      some { readyState := 3, closeCode := some (4004, "inactivity") } ∧
    ((4002 : Nat), "agent_disconnected") ≠ ((4004 : Nat), "inactivity") := by
  exact ⟨rfl, rfl, by decide⟩

/-- **C3** (amended): every inbound publisher message (binary frame or textual
meta alike) resets the inactivity deadline to a full `INACTIVITY_MS` window
from now; the watchdog cannot fire before the deadline; once the deadline has
passed with no further message, firing closes the publisher socket with
`4004 "inactivity"`, sets `endedAt` on the device's connectivity session, and
closes every open viewer of the device — with `4002 "agent_disconnected"`. -/
theorem c3_amended (s : ServerState) (cid : ConnId) (c : PubConn) (d : Time)
    (hc : findConn s.conns cid = some c) (hlive : c.closed = false)
    (hd : c.deadline = some d) :
    (∀ raw, findConn (devicePreviewOnMessage s cid raw).conns cid =
        some { c with deadline := some (s.now + INACTIVITY_MS) }) ∧
    (s.now < d → inactivityTimeout s cid = s) ∧
    (d ≤ s.now →
      (∀ pst, getKeyN s.sockets c.sockId = some pst → pst.readyState = 1 →
        getKeyN (inactivityTimeout s cid).sockets c.sockId =
          some { readyState := 3, closeCode := some (4004, "inactivity") }) ∧
      (∀ sid, c.onlineSessionId = some sid →
        (inactivityTimeout s cid).onlineSessions =
          endSessionRow s.onlineSessions sid s.now) ∧
      (∀ v, v ∈ (getKey s.previewSubscribers c.deviceId).getD [] →
        v.sockId ≠ c.sockId → readyOf s.sockets v.sockId = 1 →
        getKeyN (inactivityTimeout s cid).sockets v.sockId =
          some { readyState := 3, closeCode := some (4002, "agent_disconnected") })) := by
  refine ⟨?_, ?_, ?_⟩
  · intro raw
    rw [onMessage_conns s cid c raw hc hlive,
      findConn_updateConn s.conns cid
        (fun c0 => { c0 with deadline := some (s.now + INACTIVITY_MS) }) (fun _ => rfl),
      hc]
    rfl
  · intro hlt
    unfold inactivityTimeout
    rw [hc]
    simp [hlive, hd, hlt]
  · intro hdue
    rw [inactivityTimeout_fires s cid c d hc hlive hd hdue]
    set s1 : ServerState :=
      { s with
        conns := updateConn s.conns cid (fun c0 => { c0 with deadline := none }),
        sockets := closeSock s.sockets c.sockId 4004 "inactivity" } with hs1
    have hc1 : findConn s1.conns cid = some { c with deadline := none } := by
      rw [hs1]
      show findConn (updateConn s.conns cid fun c0 => { c0 with deadline := none }) cid = _
      rw [findConn_updateConn s.conns cid
        (fun c0 => { c0 with deadline := none }) (fun _ => rfl), hc]
      rfl
    have hlive1 : ({ c with deadline := none } : PubConn).closed = false := hlive
    have heff := closeSession_effect s1 cid _ hc1 hlive1
    refine ⟨?_, ?_, ?_⟩
    · intro pst hpst hpst1
      rw [heff]
      have hclosed : getKeyN s1.sockets c.sockId =
          some { readyState := 3, closeCode := some (4004, "inactivity") } := by
        rw [hs1]
        show getKeyN (closeSock s.sockets c.sockId 4004 "inactivity") c.sockId = _
        exact getKeyN_closeSock_open s.sockets c.sockId _ _ pst hpst hpst1
      exact closeViewerSocks_not_open s1.sockets _ c.sockId _ hclosed (by simp)
    · intro sid hsid
      rw [heff]
      simp only [hsid]
    · intro v hv hvne hready
      rcases readyOf_eq_one s.sockets v.sockId hready with ⟨st, hst, hst1⟩
      rw [heff]
      have hst' : getKeyN s1.sockets v.sockId = some st := by
        rw [hs1]
        show getKeyN (closeSock s.sockets c.sockId 4004 "inactivity") v.sockId = _
        rw [getKeyN_closeSock_ne s.sockets c.sockId v.sockId _ _ hvne]
        exact hst
      exact closeViewerSocks_open s1.sockets _ v.sockId st
        (List.mem_map.mpr ⟨v, hv, rfl⟩) hst' hst1

theorem c3_amended_witness :
    getKeyN (inactivityTimeout (run (initState ["D1"]) [.pubConnect "D1",
        .viewerConnect "D1" "u1" 0 true, .elapse 60000]) 0).sockets 0 =
      some { readyState := 3, closeCode := some (4004, "inactivity") } ∧
    getKeyN (inactivityTimeout (run (initState ["D1"]) [.pubConnect "D1",
        .viewerConnect "D1" "u1" 0 true, .elapse 60000]) 0).sockets 1 =
      some { readyState := 3, closeCode := some (4002, "agent_disconnected") } := by
  have h := c3_amended (run (initState ["D1"]) [.pubConnect "D1",
      .viewerConnect "D1" "u1" 0 true, .elapse 60000]) 0
      { connId := 0, deviceId := "D1", sockId := 0, closed := false,
        deadline := some 60000, onlineSessionId := some 0 } 60000 (by decide) rfl rfl
  have h3 := h.2.2 (by decide)
  exact ⟨h3.1 { readyState := 1, closeCode := none } (by decide) rfl,
    h3.2.2 { sockId := 1, screen := 0 } (by decide) (by decide) (by decide)⟩

/-- **C4** is false as stated: a binary frame whose one-byte prefix is
`0x7b = 123` is sniffed as candidate JSON text (line 580), fails to parse, and
is dropped — even though an open viewer requested screen 123.  With the viewer
subscribed at screen 123, the message `[123, 65, 66]` produces no delivery:
the send log still holds only the viewer's join-time meta. -/
theorem c4_counterexample :
    (run (initState ["D1"]) [.pubConnect "D1", .viewerConnect "D1" "u1" 123 true,
        .pubMessage 0 (.binRaw [123, 65, 66])]).sent =
      [(1, OutMsg.textMsg (metaMsgStr 1))] ∧
    (1, OutMsg.binMsg [65, 66]) ∉
      (run (initState ["D1"]) [.pubConnect "D1", .viewerConnect "D1" "u1" 123 true,
        .pubMessage 0 (.binRaw [123, 65, 66])]).sent := by
  exact ⟨rfl, by decide⟩

/-- **C4** (amended): a binary publisher message `prefix :: payload` with a
nonempty payload and any prefix other than `0x7b` is handled as a frame for
that (device, prefix) pair: the payload bytes are forwarded unchanged to
exactly the open subscribers requesting that screen, and the set of recipients
does not depend on the payload (the payload is never inspected).  A binary
message whose first byte is `0x7b` is instead treated as candidate textual
meta and is never forwarded as a frame. -/
theorem c4_amended (s : ServerState) (cid : ConnId) (c : PubConn)
    (hc : findConn s.conns cid = some c) (hlive : c.closed = false) :
    (∀ b rest, ¬ b = 0x7b → rest ≠ [] →
      (devicePreviewOnMessage s cid (.binRaw (b :: rest))).sent =
        s.sent ++
          (((getKey s.previewSubscribers c.deviceId).getD []).filter
              (fun v => readyOf s.sockets v.sockId = 1 ∧ v.screen = b)).map
            (fun v => (v.sockId, OutMsg.binMsg rest))) ∧
    (∀ b rest₁ rest₂, ¬ b = 0x7b → rest₁ ≠ [] → rest₂ ≠ [] →
      (devicePreviewOnMessage s cid (.binRaw (b :: rest₁))).sent.map Prod.fst =
        (devicePreviewOnMessage s cid (.binRaw (b :: rest₂))).sent.map Prod.fst) ∧
    (∀ bytes sid p, bytes.head? = some 0x7b →
      (sid, OutMsg.binMsg p) ∈ (devicePreviewOnMessage s cid (.binRaw bytes)).sent →
      (sid, OutMsg.binMsg p) ∈ s.sent) := by
  refine ⟨?_, ?_, ?_⟩
  · intro b rest hb hrest
    exact onMessage_frame_sent s cid c b rest hc hlive hb hrest
  · intro b r1 r2 hb h1 h2
    rw [onMessage_frame_sent s cid c b r1 hc hlive hb h1,
      onMessage_frame_sent s cid c b r2 hc hlive hb h2]
    simp [List.map_map, Function.comp]
  · intro bytes sid p hb hmem
    cases hp : parseMeta (utf8Decode bytes) with
    | some n =>
      rw [onMessage_eq_body s cid c _ hc hlive, onMessageBody_eq,
        onMessageDispatch_bin7b_meta _ _ _ _ hb hp, metaBroadcast_eq] at hmem
      simp only [seenState] at hmem
      rcases List.mem_append.mp hmem with h | h
      · exact h
      · rcases List.mem_map.mp h with ⟨v, _, hv⟩
        exact absurd (congrArg Prod.snd hv) (by simp)
    | none =>
      rw [onMessage_eq_body s cid c _ hc hlive, onMessageBody_eq,
        onMessageDispatch_bin7b_nometa _ _ _ hb hp] at hmem
      simpa [seenState] using hmem

theorem c4_amended_witness :
    (devicePreviewOnMessage (run (initState ["D1"]) [.pubConnect "D1",
        .viewerConnect "D1" "u1" 5 true]) 0 (.binRaw [5, 65, 66])).sent =
      [(1, OutMsg.textMsg (metaMsgStr 1)), (1, OutMsg.binMsg [65, 66])] := by
  have h := (c4_amended (run (initState ["D1"]) [.pubConnect "D1",
      .viewerConnect "D1" "u1" 5 true]) 0
      { connId := 0, deviceId := "D1", sockId := 0, closed := false,
        deadline := some 60000, onlineSessionId := some 0 } (by decide) rfl).1
      5 [65, 66] (by decide) (by decide)
  exact h.trans (by rfl)

/-- **C5**: a frame published for screen `b` on the publisher's device is
delivered — payload unchanged — to exactly the open (`readyState = 1`)
subscribers of that device whose requested screen equals `b`; a non-writable
subscriber is silently skipped, and no other socket (other screens, other
devices, non-subscribers) receives anything. -/
theorem c5_frame_fanout_exact (s : ServerState) (cid : ConnId) (c : PubConn)
    (b : Nat) (rest : List Nat)
    (hc : findConn s.conns cid = some c) (hlive : c.closed = false)
    (hb : ¬ b = 0x7b) (hrest : rest ≠ []) :
    (devicePreviewOnMessage s cid (.binRaw (b :: rest))).sent =
      s.sent ++
        (((getKey s.previewSubscribers c.deviceId).getD []).filter
            (fun v => readyOf s.sockets v.sockId = 1 ∧ v.screen = b)).map
          (fun v => (v.sockId, OutMsg.binMsg rest)) ∧
    (∀ v, v ∈ (getKey s.previewSubscribers c.deviceId).getD [] →
      readyOf s.sockets v.sockId = 1 → v.screen = b →
      (v.sockId, OutMsg.binMsg rest) ∈
        (devicePreviewOnMessage s cid (.binRaw (b :: rest))).sent) ∧
    (∀ sid m, (sid, m) ∈ (devicePreviewOnMessage s cid (.binRaw (b :: rest))).sent →
      (sid, m) ∈ s.sent ∨
        (m = OutMsg.binMsg rest ∧
          ∃ v, v ∈ (getKey s.previewSubscribers c.deviceId).getD [] ∧
            v.sockId = sid ∧ readyOf s.sockets v.sockId = 1 ∧ v.screen = b)) := by
  have heq := onMessage_frame_sent s cid c b rest hc hlive hb hrest
  refine ⟨heq, ?_, ?_⟩
  · intro v hv hready hscreen
    rw [heq]
    refine List.mem_append.mpr (Or.inr ?_)
    exact List.mem_map.mpr ⟨v, List.mem_filter.mpr ⟨hv, by simp [hready, hscreen]⟩, rfl⟩
  · intro sid m hmem
    rw [heq] at hmem
    rcases List.mem_append.mp hmem with h | h
    · exact Or.inl h
    · rcases List.mem_map.mp h with ⟨v, hvf, hv⟩
      rcases List.mem_filter.mp hvf with ⟨hvmem, hvcond⟩
      have hcond : readyOf s.sockets v.sockId = 1 ∧ v.screen = b := by
        simpa using hvcond
      have hm : m = OutMsg.binMsg rest := (congrArg Prod.snd hv).symm
      have hs : v.sockId = sid := congrArg Prod.fst hv
      exact Or.inr ⟨hm, v, hvmem, hs, hcond.1, hcond.2⟩

theorem c5_frame_fanout_exact_witness :
    (devicePreviewOnMessage (run (initState ["D1"]) [.pubConnect "D1",
        .viewerConnect "D1" "u1" 0 true, .viewerConnect "D1" "u2" 1 true]) 0
        (.binRaw [0, 200, 201])).sent =
      [(1, OutMsg.textMsg (metaMsgStr 1)), (2, OutMsg.textMsg (metaMsgStr 1)),
       (1, OutMsg.binMsg [200, 201])] := by
  have h := (c5_frame_fanout_exact (run (initState ["D1"]) [.pubConnect "D1",
      .viewerConnect "D1" "u1" 0 true, .viewerConnect "D1" "u2" 1 true]) 0
      { connId := 0, deviceId := "D1", sockId := 0, closed := false,
        deadline := some 60000, onlineSessionId := some 0 } 0 [200, 201]
      (by decide) rfl (by decide) (by decide)).1
  exact h.trans (by rfl)

/-- **C8**: a textual meta message carrying screen count `n` on a live
publisher connection sets the device's Screen-Count entry to `max 1 n`
(latest value always wins — whatever was stored before is overwritten, with no
monotonicity check), immediately re-broadcasts the meta to every open viewer of
that device, and the screens query thereafter answers `max 1 n`; for a device
with no recorded value the query answers 1. -/
theorem c8_meta_update_broadcast (s : ServerState) (cid : ConnId) (c : PubConn)
    (str : String) (n : Int)
    (hc : findConn s.conns cid = some c) (hlive : c.closed = false)
    (hp : parseMeta str = some n) :
    getKey (devicePreviewOnMessage s cid (.textRaw str)).deviceScreensCount c.deviceId =
      some (max 1 n) ∧
    (devicePreviewOnMessage s cid (.textRaw str)).sent =
      s.sent ++
        (((getKey s.previewSubscribers c.deviceId).getD []).filter
            (fun v => readyOf s.sockets v.sockId = 1)).map
          (fun v => (v.sockId, OutMsg.textMsg (metaMsgStr (max 1 n)))) ∧
    getDeviceScreens (devicePreviewOnMessage s cid (.textRaw str)) c.deviceId =
      max 1 n ∧
    (∀ d0, getKey s.deviceScreensCount d0 = none → getDeviceScreens s d0 = 1) := by
  rw [onMessage_meta_eq s cid c str n hc hlive hp, metaBroadcast_eq]
  have hget : getKey
      (setKey (seenState s c).deviceScreensCount c.deviceId (max 1 n)) c.deviceId =
      some (max 1 n) :=
    getKey_setKey_self (seenState s c).deviceScreensCount c.deviceId (max 1 n)
  refine ⟨hget, ?_, ?_, ?_⟩
  · simp [seenState]
  · show max 1 ((getKey
        (setKey (seenState s c).deviceScreensCount c.deviceId (max 1 n))
        c.deviceId).getD 1) = max 1 n
    rw [hget]
    show max 1 (max 1 n) = max 1 n
    rw [← max_assoc, max_self]
  · intro d0 h0
    unfold getDeviceScreens
    rw [h0]
    rfl

theorem c8_meta_update_broadcast_witness :
    getKey (devicePreviewOnMessage (run (initState ["D1"]) [.pubConnect "D1",
        .viewerConnect "D1" "u1" 0 true]) 0
        (.textRaw (metaMsgStr 3))).deviceScreensCount "D1" = some 3 ∧
    (devicePreviewOnMessage (run (initState ["D1"]) [.pubConnect "D1",
        .viewerConnect "D1" "u1" 0 true]) 0 (.textRaw (metaMsgStr 3))).sent =
      [(1, OutMsg.textMsg (metaMsgStr 1)), (1, OutMsg.textMsg (metaMsgStr 3))] ∧
    getDeviceScreens (devicePreviewOnMessage (run (initState ["D1"]) [.pubConnect "D1",
        .viewerConnect "D1" "u1" 0 true]) 0 (.textRaw (metaMsgStr 3))) "D1" = 3 := by
  have h := c8_meta_update_broadcast (run (initState ["D1"]) [.pubConnect "D1",
      .viewerConnect "D1" "u1" 0 true]) 0
      { connId := 0, deviceId := "D1", sockId := 0, closed := false,
        deadline := some 60000, onlineSessionId := some 0 } (metaMsgStr 3) 3
      (by decide) rfl (by decide)
  exact ⟨h.1.trans (by rfl), h.2.1.trans (by rfl), h.2.2.1.trans (by rfl)⟩

/-- **C9**: an annotation message from a device-side connection is delivered
verbatim to exactly the open supervisor-side annotation connections registered
for that device, and a supervisor-side message symmetrically to exactly the
open device-side annotation connections of that device; any socket that
receives a new message is a member of that same device's opposite set, so no
connection of a different device receives anything. -/
theorem c9_annotation_relay (st : AnnState) (d : DeviceId) (msg : String) :
    (wsDeviceAnnotateOnMessage st d msg).sent =
      st.sent ++
        (((getKey st.supervisorAnnotateByDevice d).getD []).filter
            (fun e => readyOf st.sockets e.sockId = 1)).map
          (fun e => (e.sockId, msg)) ∧
    (wsSupervisorAnnotateOnMessage st d msg).sent =
      st.sent ++
        (((getKey st.deviceAnnotateSubscribers d).getD []).filter
            (fun sid => readyOf st.sockets sid = 1)).map
          (fun sid => (sid, msg)) ∧
    (∀ sid m, (sid, m) ∈ (wsDeviceAnnotateOnMessage st d msg).sent →
      (sid, m) ∈ st.sent ∨
        (m = msg ∧
          sid ∈ ((getKey st.supervisorAnnotateByDevice d).getD []).map SupEntry.sockId)) ∧
    (∀ sid m, (sid, m) ∈ (wsSupervisorAnnotateOnMessage st d msg).sent →
      (sid, m) ∈ st.sent ∨
        (m = msg ∧ sid ∈ (getKey st.deviceAnnotateSubscribers d).getD [])) := by
  have h1 : (wsDeviceAnnotateOnMessage st d msg).sent =
      st.sent ++
        (((getKey st.supervisorAnnotateByDevice d).getD []).filter
            (fun e => readyOf st.sockets e.sockId = 1)).map
          (fun e => (e.sockId, msg)) := by
    unfold wsDeviceAnnotateOnMessage
    cases hs : getKey st.supervisorAnnotateByDevice d with
    | none => simp [hs]
    | some subs => simp [hs]
  have h2 : (wsSupervisorAnnotateOnMessage st d msg).sent =
      st.sent ++
        (((getKey st.deviceAnnotateSubscribers d).getD []).filter
            (fun sid => readyOf st.sockets sid = 1)).map
          (fun sid => (sid, msg)) := by
    unfold wsSupervisorAnnotateOnMessage
    cases hs : getKey st.deviceAnnotateSubscribers d with
    | none => simp [hs]
    | some subs => simp [hs]
  refine ⟨h1, h2, ?_, ?_⟩
  · intro sid m hmem
    rw [h1] at hmem
    rcases List.mem_append.mp hmem with h | h
    · exact Or.inl h
    · rcases List.mem_map.mp h with ⟨e, hef, he⟩
      have hm : m = msg := (congrArg Prod.snd he).symm
      have hsid : e.sockId = sid := congrArg Prod.fst he
      exact Or.inr ⟨hm, List.mem_map.mpr ⟨e, (List.mem_filter.mp hef).1, hsid⟩⟩
  · intro sid m hmem
    rw [h2] at hmem
    rcases List.mem_append.mp hmem with h | h
    · exact Or.inl h
    · rcases List.mem_map.mp h with ⟨sid0, hef, he⟩
      have hm : m = msg := (congrArg Prod.snd he).symm
      have hsid : sid0 = sid := congrArg Prod.fst he
      exact Or.inr ⟨hm, hsid ▸ (List.mem_filter.mp hef).1⟩
